import Mathlib

/-!
Shallow embedding of the trazr-gen synthetic-telemetry generator
(https://github.com/medxops/trazr-gen): the attribute/template processing
pipeline (internal/common/attributes.go), severity parsing
(pkg/logs, `parseSeverity` / `severityNumberToText`), config validation,
the per-signal worker loops (pkg/logs/worker.go, pkg/traces/worker.go) and
the run coordinators (logs/metrics/traces `run`), together with theorems
settling the specification claims about them.

Conventions:
- Go `map[string]any` is modelled as an association list; Go map iteration
  order is unspecified, so map-order-sensitive facts are quantified over
  permutations of the binding list.
- Go machine integers are modelled as `Int` with explicit clamping where the
  source clamps (`int64` bounds inside `strconv`, the `int32` clamp in the
  logs worker).
- External collaborators are modelled at their interface: the gofakeit
  template engine (`ProcessMockTemplate`) is an oracle
  `expand : String → Except String String`; `strconv.ParseFloat` success is an
  oracle `parseFloatOk : String → Bool`; `strconv.Atoi` and
  `strconv.ParseBool` are modelled concretely below.
- `zap.Logger.Fatal` calls `os.Exit(1)` (zap's documented behaviour), so the
  worker-loop model maps every `logger.Fatal` call to a process-exit outcome.
-/

namespace TrazrGen

/-! ## Attribute values

Go `any` attribute values that the pipeline recognises.  `unsupported` stands
for every other dynamic type (for example `float64` after YAML parsing or a
nested map): both `attributesFromMap` and `ProcessMockMarkers` have no switch
case for them, so they are silently dropped. -/

inductive AnyVal where
  | str (s : String)
  | boolean (b : Bool)
  | int (n : Int)
  | unsupported
deriving DecidableEq, Repr

/-- Typed OpenTelemetry attribute value (`attribute.Value`).  The `float`
constructor keeps the string that `strconv.ParseFloat` accepted; the numeric
float semantics are irrelevant to every claim. -/
inductive AttrValue where
  | str (s : String)
  | boolean (b : Bool)
  | int (n : Int)
  | float (repr : String)
deriving DecidableEq, Repr

/-- One `attribute.KeyValue`. -/
structure KeyValue where
  key : String
  value : AttrValue
deriving DecidableEq, Repr

/-- A Go `map[string]any`, as its list of bindings (callers keep keys unique;
iteration order of the Go map is an arbitrary permutation of this list). -/
abbrev RawMap := List (String × AnyVal)

/-- Go `_, ok := attrs[k]`. -/
def containsKey (m : RawMap) (k : String) : Bool :=
  (m.lookup k).isSome

/-- Go map assignment `m[k] = v`: replaces the binding of an existing key,
otherwise adds one. -/
def mapInsert : RawMap → String → AnyVal → RawMap
  | [], k, v => [(k, v)]
  | (k', v') :: rest, k, v =>
      if k' = k then (k, v) :: rest else (k', v') :: mapInsert rest k v

/-- Go `strings.Contains hay needle`. -/
def strContains (hay needle : String) : Bool :=
  decide (needle.data <:+: hay.data)

/-- `strings.Contains(v, "\x7b\x7b") && strings.Contains(v, "\x7d\x7d")`:
the guard deciding whether a string value is treated as a mock template. -/
def hasTemplateDelims (s : String) : Bool :=
  strContains s "\x7b\x7b" && strContains s "\x7d\x7d"

/-! ## `strconv` models (Go standard library, at its documented interface) -/

def int64Max : Int := 2 ^ 63 - 1
def int64Min : Int := -(2 ^ 63)
def int32Max : Int := 2 ^ 31 - 1
def int32Min : Int := -(2 ^ 31)

/-- `strconv.Atoi` (= `ParseInt(s, 10, 0)` with 64-bit `int`): optional sign
followed by one or more ASCII digits; returns `(value, true)` on success,
`(0, false)` on a syntax error, and the clamped extreme `int64`
(`ErrRange`, so `false`) when the digits overflow. -/
def goAtoi (s : String) : Int × Bool :=
  match s.data with
  | [] => (0, false)
  | c :: rest =>
    let neg : Bool := c = '-'
    let digits := if c = '-' || c = '+' then rest else c :: rest
    if digits.isEmpty || !(digits.all Char.isDigit) then (0, false)
    else
      let mag : Nat := digits.foldl (fun acc d => acc * 10 + (d.toNat - 48)) 0
      let v : Int := if neg then -(mag : Int) else (mag : Int)
      if v > int64Max then (int64Max, false)
      else if v < int64Min then (int64Min, false)
      else (v, true)

/-- `strconv.ParseBool`: accepts exactly these twelve literals. -/
def goParseBool (s : String) : Option Bool :=
  if s = "1" || s = "t" || s = "T" || s = "TRUE" || s = "true" || s = "True" then some true
  else if s = "0" || s = "f" || s = "F" || s = "FALSE" || s = "false" || s = "False" then some false
  else none

/-! ## internal/common/attributes.go -/

/-- One entry of the `attributesFromMap` loop: the type switch keeps string,
bool and int values and has no case for anything else. -/
def entryToKV : String × AnyVal → Option KeyValue
  | (k, .str s) => some ⟨k, .str s⟩
  | (k, .boolean b) => some ⟨k, .boolean b⟩
  | (k, .int n) => some ⟨k, .int n⟩
  | (_, .unsupported) => none

/-- `attributesFromMap`: convert a `map[string]any` (iterated in the order of
the binding list) to a slice of `attribute.KeyValue`. -/
def attributesFromMap (m : RawMap) : List KeyValue :=
  m.filterMap entryToKV

/-- Coercion of an expanded template string inside `ProcessMockMarkers`:
try `strconv.Atoi`, then `strconv.ParseBool`, then `strconv.ParseFloat`,
falling back to a string attribute. -/
def coerceExpanded (parseFloatOk : String → Bool) (k parsed : String) : KeyValue :=
  if (goAtoi parsed).2 then ⟨k, .int (goAtoi parsed).1⟩
  else
    match goParseBool parsed with
    | some b => ⟨k, .boolean b⟩
    | none => if parseFloatOk parsed then ⟨k, .float parsed⟩ else ⟨k, .str parsed⟩

/-- Body of the `ProcessMockMarkers` range loop for one map entry: returns the
appended `KeyValue` (if any) and whether the key was recorded in `mockKeys`. -/
def processEntry (expand : String → Except String String) (parseFloatOk : String → Bool)
    (k : String) (v : AnyVal) : Except String (Option KeyValue × Bool) :=
  match v with
  | .str s =>
    if hasTemplateDelims s then
      match expand s with
      | .error e => .error e
      | .ok parsed => .ok (some (coerceExpanded parseFloatOk k parsed), true)
    else .ok (some ⟨k, .str s⟩, false)
  | .boolean b => .ok (some ⟨k, .boolean b⟩, false)
  | .int n => .ok (some ⟨k, .int n⟩, false)
  | .unsupported => .ok (none, false)

/-- The `ProcessMockMarkers` loop over all entries: accumulates the result
slice and the `mockKeys` slice in iteration order. -/
def processMockMarkersCore (expand : String → Except String String)
    (parseFloatOk : String → Bool) : RawMap → Except String (List KeyValue × List String)
  | [] => .ok ([], [])
  | (k, v) :: rest =>
    match processEntry expand parseFloatOk k v with
    | .error e => .error e
    | .ok (kv?, isMock) =>
      match processMockMarkersCore expand parseFloatOk rest with
      | .error e => .error e
      | .ok (kvs, mks) => .ok (kv?.toList ++ kvs, (if isMock then [k] else []) ++ mks)

/-- `ProcessMockMarkers`: expand templates, coerce, and append the
`trazr.mock.data` marker when any key was expanded. -/
def processMockMarkers (expand : String → Except String String)
    (parseFloatOk : String → Bool) (attrs : RawMap) : Except String (List KeyValue) :=
  match processMockMarkersCore expand parseFloatOk attrs with
  | .error e => .error e
  | .ok (kvs, mockKeys) =>
    if mockKeys.isEmpty then .ok kvs
    else .ok (kvs ++ [⟨"trazr.mock.data", .str (String.intercalate "," mockKeys)⟩])

/-- `Config.GetTelemetryAttrWithMockMarker`: route through
`ProcessMockMarkers` when mock data is enabled, else `attributesFromMap`. -/
def getTelemetryAttrWithMockMarker (mockData : Bool)
    (expand : String → Except String String) (parseFloatOk : String → Bool)
    (telemetryAttributes : RawMap) : Except String (List KeyValue) :=
  if mockData then processMockMarkers expand parseFloatOk telemetryAttributes
  else .ok (attributesFromMap telemetryAttributes)

/-- The keys of `sensitiveKeys` that are present in `attrs`, in declared
order — the `present` slice of `InjectSensitiveDataMarker`. -/
def sensitivePresent (attrs : RawMap) (sensitiveKeys : List String) : List String :=
  sensitiveKeys.filter (fun k => containsKey attrs k)

/-- `InjectSensitiveDataMarker`: add the `trazr.sensitive.data` key when any
configured sensitive key is present in the map. -/
def injectSensitiveDataMarker (attrs : RawMap) (sensitiveKeys : List String) : RawMap :=
  let present := sensitivePresent attrs sensitiveKeys
  if present.isEmpty then attrs
  else mapInsert attrs "trazr.sensitive.data" (.str (String.intercalate "," present))

/-! ## pkg/logs severity handling -/

/-- The `severityNumberToText` 24-entry lookup table; a Go map read of a
missing key yields the zero value `""`. -/
def severityTextFromNumber (n : Int) : String :=
  if n = 1 then "Trace" else if n = 2 then "Trace2"
  else if n = 3 then "Trace3" else if n = 4 then "Trace4"
  else if n = 5 then "Debug" else if n = 6 then "Debug2"
  else if n = 7 then "Debug3" else if n = 8 then "Debug4"
  else if n = 9 then "Info" else if n = 10 then "Info2"
  else if n = 11 then "Info3" else if n = 12 then "Info4"
  else if n = 13 then "Warn" else if n = 14 then "Warn2"
  else if n = 15 then "Warn3" else if n = 16 then "Warn4"
  else if n = 17 then "Error" else if n = 18 then "Error2"
  else if n = 19 then "Error3" else if n = 20 then "Error4"
  else if n = 21 then "Fatal" else if n = 22 then "Fatal2"
  else if n = 23 then "Fatal3" else if n = 24 then "Fatal4"
  else ""

/-- `parseSeverity` (pkg/logs): range check, text derivation from the table
when the text is empty, then the band-agreement switch over the six
well-known base texts (`plog.SeverityNumberTrace.String()` etc.). -/
def parseSeverity (severityText : String) (severityNumber : Int) :
    Except String (String × Int) :=
  if severityNumber < 1 ∨ 24 < severityNumber then
    .error "severity-number is out of range, the valid range is [1,24]"
  else
    let text := if severityText = "" then severityTextFromNumber severityNumber
                else severityText
    if text = "Trace" then
      if severityNumber < 1 ∨ 4 < severityNumber then
        .error "severity text Trace does not match severity number, the valid range is [1,4]"
      else .ok (text, severityNumber)
    else if text = "Debug" then
      if severityNumber < 5 ∨ 8 < severityNumber then
        .error "severity text Debug does not match severity number, the valid range is [5,8]"
      else .ok (text, severityNumber)
    else if text = "Info" then
      if severityNumber < 9 ∨ 12 < severityNumber then
        .error "severity text Info does not match severity number, the valid range is [9,12]"
      else .ok (text, severityNumber)
    else if text = "Warn" then
      if severityNumber < 13 ∨ 16 < severityNumber then
        .error "severity text Warn does not match severity number, the valid range is [13,16]"
      else .ok (text, severityNumber)
    else if text = "Error" then
      if severityNumber < 17 ∨ 20 < severityNumber then
        .error "severity text Error does not match severity number, the valid range is [17,20]"
      else .ok (text, severityNumber)
    else if text = "Fatal" then
      if severityNumber < 21 ∨ 24 < severityNumber then
        .error "severity text Fatal does not match severity number, the valid range is [21,24]"
      else .ok (text, severityNumber)
    else .ok (text, severityNumber)

/-- The band `[lo, hi]` that the `parseSeverity` switch enforces for each
well-known severity text (and `none` for every other text). -/
def wellKnownBand (t : String) : Option (Int × Int) :=
  if t = "Trace" then some (1, 4)
  else if t = "Debug" then some (5, 8)
  else if t = "Info" then some (9, 12)
  else if t = "Warn" then some (13, 16)
  else if t = "Error" then some (17, 20)
  else if t = "Fatal" then some (21, 24)
  else none

/-- Severity text and number that end up on the log record. -/
structure SeverityOutcome where
  text : String
  number : Int
deriving DecidableEq, Repr

/-- Lines 151–169 of pkg/logs/worker.go, after template expansion:
`strconv.Atoi`, the (unsatisfiable) `err != nil && v < 1 && v > 24` fallback
guard, the `int32` clamp, then `parseSeverity` with fallback to the raw
text/number on error. -/
def severityForRecord (severityText severityNumberStr : String) : SeverityOutcome :=
  let r := goAtoi severityNumberStr
  let v : Int := if !r.2 && decide (r.1 < 1) && decide (24 < r.1) then 9 else r.1
  let safe : Int := if int32Max < v then int32Max else if v < int32Min then int32Min else v
  match parseSeverity severityText safe with
  | .ok (t, n) => ⟨t, n⟩
  | .error _ => ⟨severityText, safe⟩

/-! ## Worker loops (pkg/logs/worker.go `simulateLogs`,
pkg/traces/worker.go `simulateTraces`)

Failure injection for the external collaborators, per outer iteration index:
whether telemetry-attribute processing, body-template expansion, the rate
limiter wait and the export call succeed.  `simulateLogs`/`simulateTraces`
call `logger.Fatal` — i.e. `os.Exit(1)` — on attribute, limiter and export
errors, and `break` only on a body-expansion error, which the exit kinds
below record. -/

structure WorkerEnv where
  mockData : Bool
  attrsOk : Nat → Bool
  bodyOk : Nat → Bool
  limiterOk : Nat → Bool
  exportOk : Nat → Bool

/-- How a worker loop ended. `completed` and `bodyErrBreak` fall through to
`wg.Done()`; the three `fatal*` kinds are `logger.Fatal` calls, which
terminate the whole process (`os.Exit(1)`), killing sibling workers and the
coordinator. -/
inductive WorkerExit where
  | completed
  | bodyErrBreak
  | fatalAttrs
  | fatalLimiter
  | fatalExport
deriving DecidableEq, Repr

structure WorkerResult where
  exported : Nat
  exit : WorkerExit
deriving DecidableEq, Repr

/-- The `simulateLogs` loop with the shared running flag held true (the flag
only flips when a total duration is configured).  `i` counts completed
iterations (= successful exports = shared-counter increments); `none` means
the fuel ran out with the loop still running. -/
def simulateLogsLoop (env : WorkerEnv) (numLogs : Int) :
    Nat → Nat → Option WorkerResult
  | 0, _ => none
  | fuel + 1, i =>
    if env.mockData && !(env.attrsOk i) then some ⟨i, .fatalAttrs⟩
    else if env.mockData && !(env.bodyOk i) then some ⟨i, .bodyErrBreak⟩
    else if !(env.limiterOk i) then some ⟨i, .fatalLimiter⟩
    else if !(env.exportOk i) then some ⟨i, .fatalExport⟩
    else
      let i' := i + 1
      if numLogs ≠ 0 ∧ (numLogs ≤ (i' : Int)) then some ⟨i', .completed⟩
      else simulateLogsLoop env numLogs fuel i'

/-- The `simulateTraces` outer loop with the running flag held true: limiter
wait, telemetry-attribute build (both `logger.Fatal` on failure), one parent
span plus the child-span loop, then the count check. -/
def simulateTracesLoop (env : WorkerEnv) (numTraces : Int) :
    Nat → Nat → Option WorkerResult
  | 0, _ => none
  | fuel + 1, i =>
    if !(env.limiterOk i) then some ⟨i, .fatalLimiter⟩
    else if env.mockData && !(env.attrsOk i) then some ⟨i, .fatalAttrs⟩
    else
      let i' := i + 1
      if numTraces ≠ 0 ∧ (numTraces ≤ (i' : Int)) then some ⟨i', .completed⟩
      else simulateTracesLoop env numTraces fuel i'

/-- An environment in which every external call succeeds and mock data is
disabled. -/
def envAllOk : WorkerEnv :=
  ⟨false, fun _ => true, fun _ => true, fun _ => true, fun _ => true⟩

/-! ## Run coordinator (logs `run`, identically structured in metrics `run`) -/

/-- The fields of the logs `Config` that `Validate` and `run` consult.
`totalDuration` is `time.Duration` in nanoseconds. -/
structure LogsConfig where
  workerCount : Int
  totalDuration : Int
  numLogs : Int
  traceID : String
  spanID : String
deriving DecidableEq, Repr

def isHexDigit (c : Char) : Bool :=
  c.isDigit || (97 ≤ c.toNat && c.toNat ≤ 102) || (65 ≤ c.toNat && c.toNat ≤ 70)

/-- Modelled from the spec: `common.ValidateTraceID` is absent from the
sources (only its callers appear); per the spec a trace identifier must be a
32-character hex string. -/
def validateTraceID (s : String) : Except String Unit :=
  if s.length = 32 && s.data.all isHexDigit then .ok ()
  else .error "TraceID must be a 32 character hex string"

/-- Modelled from the spec: `common.ValidateSpanID` is absent from the
sources; per the spec a span identifier must be a 16-character hex string. -/
def validateSpanID (s : String) : Except String Unit :=
  if s.length = 16 && s.data.all isHexDigit then .ok ()
  else .error "SpanID must be a 16 character hex string"

/-- Logs `Config.Validate`: duration-or-count check, then the identifier
checks for non-empty identifiers. -/
def logsValidate (c : LogsConfig) : Except String Unit :=
  if c.totalDuration ≤ 0 ∧ c.numLogs ≤ 0 then
    .error "either `logs` or `duration` must be greater than 0"
  else
    match (if c.traceID = "" then .ok () else validateTraceID c.traceID :
        Except String Unit) with
    | .error e => .error e
    | .ok _ => if c.spanID = "" then .ok () else validateSpanID c.spanID

/-- The fields of the traces `Config` that `Validate` and `run` consult. -/
structure TracesConfig where
  workerCount : Int
  totalDuration : Int
  numTraces : Int
  numChildSpans : Int
deriving DecidableEq, Repr

/-- Traces `Config.Validate`: only the duration-or-count check. -/
def tracesValidate (c : TracesConfig) : Except String Unit :=
  if c.totalDuration ≤ 0 ∧ c.numTraces ≤ 0 then
    .error "either `traces` or `duration` must be greater than 0"
  else .ok ()

/-- Observable events of one logs/metrics `run`, in order. -/
inductive CoEvent where
  | workerDone (idx : Nat)
  | finalReport (total : Int)
  | shutdown
deriving DecidableEq, Repr

structure CoordOutcome where
  err : Option String
  events : List CoEvent
  totalLogs : Int
deriving DecidableEq, Repr

/-- The logs `run` (pkg/logs, identically structured in pkg/metrics)
abstracted over each worker's emitted count:
validate (returning before any worker is spawned on error); spawn
`workerCount` workers, REGISTERING ONE `defer exporter.Shutdown` PER LOOP
ITERATION; `wg.Wait()` until every worker has signalled done; log the final
count; then the deferred shutdowns execute as `run` returns.  (The resource
attribute build between validation and spawning is elided: with mock data it
can `logger.Fatal`, which exits the process before any worker is spawned.) -/
def runLogs (c : LogsConfig) (workerExported : Nat → Nat) : CoordOutcome :=
  match logsValidate c with
  | .error e => ⟨some e, [], 0⟩
  | .ok _ =>
    let W := c.workerCount.toNat
    let total : Int := ((List.range W).map (fun i => (workerExported i : Int))).sum
    ⟨none,
     ((List.range W).map CoEvent.workerDone)
       ++ [CoEvent.finalReport total]
       ++ List.replicate W CoEvent.shutdown,
     total⟩

/-- The logs `run` with each worker executing the `simulateLogs` loop model
(`c.NumLogs` is zeroed when a total duration is configured); `none` when the
fuel is insufficient for the workers to finish (`wg.Wait` still blocked). -/
def runLogsWithWorkers (c : LogsConfig) (env : WorkerEnv) (fuel : Nat) :
    Option CoordOutcome :=
  match logsValidate c with
  | .error e => some ⟨some e, [], 0⟩
  | .ok _ =>
    let effNumLogs : Int := if 0 < c.totalDuration then 0 else c.numLogs
    let W := c.workerCount.toNat
    match simulateLogsLoop env effNumLogs fuel 0 with
    | none => none
    | some res =>
      let total : Int := W * res.exported
      some ⟨none,
        ((List.range W).map CoEvent.workerDone)
          ++ [CoEvent.finalReport total]
          ++ List.replicate W CoEvent.shutdown,
        total⟩

/-! ## Traces coordinator: the child-span clamp (pkg/traces `run`)

`numChildSpans: int(math.Max(1, float64(c.NumChildSpans)))` — the
configured count passes through `float64`, which rounds integers of more
than 53 significant bits to the nearest representable value (ties to even)
before the max with 1 and the truncating conversion back to `int`; that
conversion overflows `int64` when the rounded value is `2 ^ 63`. -/

/-- Number of binary digits of `n` (enough fuel for every 64-bit value). -/
def bitLenAux : Nat → Nat → Nat
  | 0, _ => 0
  | fuel + 1, n => if n = 0 then 0 else bitLenAux fuel (n / 2) + 1

def bitLen (n : Nat) : Nat := bitLenAux 64 n

/-- Rounding of an integer to the nearest `float64` (53-bit significand,
round half to even); exact for magnitudes up to `2 ^ 53`. -/
def floatRound53 (n : Int) : Int :=
  let m := n.natAbs
  if m ≤ 2 ^ 53 then n
  else
    let k := bitLen m - 53
    let unit := 2 ^ k
    let q := m / unit
    let r := m % unit
    let q2 := if 2 * r < unit then q
              else if unit < 2 * r then q + 1
              else if q % 2 = 0 then q else q + 1
    (if n < 0 then -1 else 1) * (q2 * unit : Nat)

/-- `int(math.Max(1, float64(c.NumChildSpans)))` from the traces `run`, with
64-bit `int`: the rounded configured value is maxed with 1 in the float
domain; converting the result back to `int` truncates exactly for integral
values that fit, while a value exceeding the `int64` range (only `2 ^ 63`
can arise here, from configured values in [2^63 - 512, 2^63 - 1]) makes the
conversion implementation-specific per the Go spec — on amd64 (`CVTTSD2SI`)
it produces `int64Min`, which this model adopts. -/
def effectiveNumChildSpans (n : Int) : Int :=
  let f := max 1 (floatRound53 n)
  if int64Max < f then int64Min else f

/-- Trip count of the child-span loop `for j := 0; j < w.numChildSpans; j++`
in `simulateTraces`: the number of child spans generated per trace. -/
def childSpansGenerated (numChildSpans : Int) : Nat :=
  numChildSpans.toNat

/-! ## Helper lemmas -/

theorem lookup_mapInsert (m : RawMap) (k : String) (v : AnyVal) :
    (mapInsert m k v).lookup k = some v := by
  induction m with
  | nil => simp [mapInsert, List.lookup]
  | cons hd tl ih =>
    obtain ⟨k', v'⟩ := hd
    by_cases h : k' = k
    · subst h
      simp [mapInsert, List.lookup]
    · simp only [mapInsert, if_neg h, List.lookup]
      have : (k == k') = false := beq_eq_false_iff_ne.mpr (Ne.symm h)
      rw [this]
      exact ih

/-- In a concatenation in which no element of the left part satisfies `Q` and
no element of the right part satisfies `P`, every `P`-position precedes every
`Q`-position. -/
theorem append_pos_lt {α : Type} (A B : List α) (P Q : α → Prop)
    (hA : ∀ a ∈ A, ¬ Q a) (hB : ∀ b ∈ B, ¬ P b)
    (i j : Nat) (hi : i < (A ++ B).length) (hj : j < (A ++ B).length)
    (hPi : P ((A ++ B).get ⟨i, hi⟩)) (hQj : Q ((A ++ B).get ⟨j, hj⟩)) :
    i < j := by
  have hlen : (A ++ B).length = A.length + B.length := List.length_append A B
  have hiA : i < A.length := by
    by_contra hge
    push_neg at hge
    have hib : i - A.length < B.length := by omega
    have hEq : (A ++ B).get ⟨i, hi⟩ = B.get ⟨i - A.length, hib⟩ := by
      simp only [List.get_eq_getElem]
      exact List.getElem_append_right hge
    exact hB _ (List.get_mem B _ hib) (hEq ▸ hPi)
  have hjB : A.length ≤ j := by
    by_contra hlt
    push_neg at hlt
    have hEq : (A ++ B).get ⟨j, hj⟩ = A.get ⟨j, hlt⟩ := by
      simp only [List.get_eq_getElem]
      exact List.getElem_append_left hlt
    exact hA _ (List.get_mem A _ hlt) (hEq ▸ hQj)
  omega

/-- The logs worker loop with every external call succeeding runs to the
configured count. -/
theorem simulateLogsLoop_allOk (N : Int) :
    ∀ (fuel i : Nat), (i : Int) < N → N ≤ (i : Int) + fuel →
      simulateLogsLoop envAllOk N fuel i = some ⟨N.toNat, .completed⟩ := by
  intro fuel
  induction fuel with
  | zero => intro i h1 h2; omega
  | succ fuel ih =>
    intro i h1 h2
    unfold simulateLogsLoop
    simp only [envAllOk, Bool.false_and, Bool.not_true, Bool.and_false,
      Bool.false_eq_true, if_false, Bool.not_false, ite_false, ite_true]
    by_cases hc : N ≤ ((i + 1 : Nat) : Int)
    · rw [if_pos ⟨by omega, hc⟩]
      have : N.toNat = i + 1 := by omega
      rw [this]
    · rw [if_neg (by push_neg; intro _; omega)]
      exact ih (i + 1) (by omega) (by omega)

/-- The traces worker loop with every external call succeeding runs to the
configured count. -/
theorem simulateTracesLoop_allOk (N : Int) :
    ∀ (fuel i : Nat), (i : Int) < N → N ≤ (i : Int) + fuel →
      simulateTracesLoop envAllOk N fuel i = some ⟨N.toNat, .completed⟩ := by
  intro fuel
  induction fuel with
  | zero => intro i h1 h2; omega
  | succ fuel ih =>
    intro i h1 h2
    unfold simulateTracesLoop
    simp only [envAllOk, Bool.false_and, Bool.not_true, Bool.and_false,
      Bool.false_eq_true, if_false, Bool.not_false, ite_false, ite_true]
    by_cases hc : N ≤ ((i + 1 : Nat) : Int)
    · rw [if_pos ⟨by omega, hc⟩]
      have : N.toNat = i + 1 := by omega
      rw [this]
    · rw [if_neg (by push_neg; intro _; omega)]
      exact ih (i + 1) (by omega) (by omega)

/-- Rounding to `float64` preserves non-positivity. -/
theorem floatRound53_nonpos (n : Int) (h : n ≤ 0) : floatRound53 n ≤ 0 := by
  by_cases h1 : n.natAbs ≤ 2 ^ 53
  · unfold floatRound53
    rw [if_pos h1]
    exact h
  · have hneg : n < 0 := by
      rcases h.lt_or_eq with h' | h'
      · exact h'
      · exact absurd (show n.natAbs ≤ 2 ^ 53 by rw [h']; norm_num) h1
    unfold floatRound53
    rw [if_neg h1, if_pos hneg]
    simp only []
    omega

/-- Rounding to `float64` is exact up to 53-bit magnitudes. -/
theorem floatRound53_of_small (n : Int) (h : n.natAbs ≤ 2 ^ 53) :
    floatRound53 n = n := by
  unfold floatRound53
  rw [if_pos h]

/-! ## Claim theorems -/

/-- Claim C4: the sensitivity marker round-trips — when no configured
sensitive key is present the map is unchanged (no marker), otherwise the
`trazr.sensitive.data` value is exactly the comma-join of the configured
sensitive keys present in the map; membership in the joined list is exactly
(configured ∧ present), and (being a `filter` of the configured list) the
joined keys appear in declared order. -/
theorem C4_sensitive_marker_round_trip (attrs : RawMap) (sensitiveKeys : List String) :
    (sensitivePresent attrs sensitiveKeys = [] →
      injectSensitiveDataMarker attrs sensitiveKeys = attrs)
    ∧ (sensitivePresent attrs sensitiveKeys ≠ [] →
      (injectSensitiveDataMarker attrs sensitiveKeys).lookup "trazr.sensitive.data" =
        some (.str (String.intercalate "," (sensitivePresent attrs sensitiveKeys))))
    ∧ (∀ k, k ∈ sensitivePresent attrs sensitiveKeys ↔
        k ∈ sensitiveKeys ∧ containsKey attrs k = true)
    ∧ (sensitivePresent attrs sensitiveKeys).Sublist sensitiveKeys := by
  refine ⟨?_, ?_, ?_, List.filter_sublist _⟩
  · intro h
    simp [injectSensitiveDataMarker, h]
  · intro h
    have he : (sensitivePresent attrs sensitiveKeys).isEmpty = false := by
      cases hp : sensitivePresent attrs sensitiveKeys with
      | nil => exact absurd hp h
      | cons a l => simp
    simp only [injectSensitiveDataMarker, he, Bool.false_eq_true, if_false]
    exact lookup_mapInsert _ _ _
  · intro k
    simp [sensitivePresent, List.mem_filter]

/-- Claim C4 witness: the spec scenario — raw attributes a/b/c with sensitive
list ["a"] yields marker value "a"; sensitive list ["x"] adds no marker. -/
theorem C4_witness :
    (sensitivePresent [("a", AnyVal.str "A"), ("b", AnyVal.str "B"), ("c", AnyVal.str "C")]
        ["a"] ≠ [] ∧
      (injectSensitiveDataMarker
          [("a", AnyVal.str "A"), ("b", AnyVal.str "B"), ("c", AnyVal.str "C")]
          ["a"]).lookup "trazr.sensitive.data" =
        some (.str (String.intercalate ","
          (sensitivePresent [("a", AnyVal.str "A"), ("b", AnyVal.str "B"), ("c", AnyVal.str "C")]
            ["a"]))))
    ∧ (sensitivePresent [("a", AnyVal.str "A"), ("b", AnyVal.str "B"), ("c", AnyVal.str "C")]
        ["x"] = [] ∧
      injectSensitiveDataMarker
          [("a", AnyVal.str "A"), ("b", AnyVal.str "B"), ("c", AnyVal.str "C")] ["x"] =
        [("a", AnyVal.str "A"), ("b", AnyVal.str "B"), ("c", AnyVal.str "C")]) :=
  ⟨⟨by decide,
    (C4_sensitive_marker_round_trip
      [("a", AnyVal.str "A"), ("b", AnyVal.str "B"), ("c", AnyVal.str "C")] ["a"]).2.1
      (by decide)⟩,
   ⟨by decide,
    (C4_sensitive_marker_round_trip
      [("a", AnyVal.str "A"), ("b", AnyVal.str "B"), ("c", AnyVal.str "C")] ["x"]).1
      (by decide)⟩⟩

/-- Claim C5: with empty severity text, every number in [1,24] derives its
text from the 24-entry table (with 9 ↦ "Info"); numbers outside [1,24] fail
with the out-of-range error; a well-known severity text whose band does not
contain an in-range number fails with a mismatch error. -/
theorem C5_severity_parsing (n : Int) :
    (1 ≤ n → n ≤ 24 → parseSeverity "" n = .ok (severityTextFromNumber n, n))
    ∧ severityTextFromNumber 9 = "Info"
    ∧ (∀ t, (n < 1 ∨ 24 < n) → parseSeverity t n =
        .error "severity-number is out of range, the valid range is [1,24]")
    ∧ (∀ t lo hi, wellKnownBand t = some (lo, hi) → 1 ≤ n → n ≤ 24 →
        (n < lo ∨ hi < n) → ∃ e, parseSeverity t n = .error e) := by
  refine ⟨?_, rfl, ?_, ?_⟩
  · intro h1 h2
    interval_cases n <;> rfl
  · intro t h
    unfold parseSeverity
    rw [if_pos h]
  · intro t lo hi hb h1 h2 hout
    unfold wellKnownBand at hb
    split_ifs at hb with hT hD hI hW hE hF
    · simp only [Option.some.injEq, Prod.mk.injEq] at hb
      obtain ⟨rfl, rfl⟩ := hb
      subst hT
      interval_cases n <;> first | exact ⟨_, rfl⟩ | omega
    · simp only [Option.some.injEq, Prod.mk.injEq] at hb
      obtain ⟨rfl, rfl⟩ := hb
      subst hD
      interval_cases n <;> first | exact ⟨_, rfl⟩ | omega
    · simp only [Option.some.injEq, Prod.mk.injEq] at hb
      obtain ⟨rfl, rfl⟩ := hb
      subst hI
      interval_cases n <;> first | exact ⟨_, rfl⟩ | omega
    · simp only [Option.some.injEq, Prod.mk.injEq] at hb
      obtain ⟨rfl, rfl⟩ := hb
      subst hW
      interval_cases n <;> first | exact ⟨_, rfl⟩ | omega
    · simp only [Option.some.injEq, Prod.mk.injEq] at hb
      obtain ⟨rfl, rfl⟩ := hb
      subst hE
      interval_cases n <;> first | exact ⟨_, rfl⟩ | omega
    · simp only [Option.some.injEq, Prod.mk.injEq] at hb
      obtain ⟨rfl, rfl⟩ := hb
      subst hF
      interval_cases n <;> first | exact ⟨_, rfl⟩ | omega

/-- Claim C5 witness: n = 9 with empty text yields "Info"; n = 25 is
out of range; text "Info" with n = 5 is a band mismatch. -/
theorem C5_witness :
    ((1 : Int) ≤ 9 ∧ (9 : Int) ≤ 24 ∧
      parseSeverity "" 9 = .ok (severityTextFromNumber 9, 9) ∧
      severityTextFromNumber 9 = "Info")
    ∧ (((25 : Int) < 1 ∨ (24 : Int) < 25) ∧ parseSeverity "Info" 25 =
        .error "severity-number is out of range, the valid range is [1,24]")
    ∧ (wellKnownBand "Info" = some (9, 12) ∧ ((5 : Int) < 9 ∨ (12 : Int) < 5) ∧
        ∃ e, parseSeverity "Info" 5 = .error e) :=
  ⟨⟨by decide, by decide,
    (C5_severity_parsing 9).1 (by decide) (by decide), (C5_severity_parsing 9).2.1⟩,
   ⟨by decide, (C5_severity_parsing 25).2.2.1 "Info" (by decide)⟩,
   ⟨by decide, by decide,
    (C5_severity_parsing 5).2.2.2 "Info" 9 12 (by decide) (by decide) (by decide)
      (by decide)⟩⟩

/-- Claim C9 (amended): the configured child-span count is clamped through
`int(math.Max(1, float64(n)))`; whenever the configured value is exactly
representable as a `float64` (|n| ≤ 2^53 — in particular every zero,
negative, and realistic configuration) the effective count equals `max 1 n`,
is at least 1, and the child-span loop generates at least one child span per
trace; every non-positive configured value yields effective count exactly 1
(one child span).  For configured values in [2^63 - 512, 2^63 - 1] the
guarantee fails: the rounded value 2^63 overflows the `int` conversion (see
the counterexample). -/
theorem C9_child_span_clamp (n : Int) :
    (n.natAbs ≤ 2 ^ 53 →
      effectiveNumChildSpans n = max 1 n
      ∧ 1 ≤ effectiveNumChildSpans n
      ∧ 1 ≤ childSpansGenerated (effectiveNumChildSpans n))
    ∧ (n ≤ 0 →
      effectiveNumChildSpans n = 1
      ∧ childSpansGenerated (effectiveNumChildSpans n) = 1) := by
  constructor
  · intro h
    have hcast : ((n.natAbs : Nat) : Int) ≤ (((2 : Nat) ^ 53 : Nat) : Int) := by
      exact_mod_cast h
    have hn : n ≤ (2 : Int) ^ 53 := by
      calc n ≤ ((n.natAbs : Nat) : Int) := Int.le_natAbs
        _ ≤ (((2 : Nat) ^ 53 : Nat) : Int) := hcast
        _ = (2 : Int) ^ 53 := by push_cast
    have hmaxle : max 1 n ≤ (2 : Int) ^ 53 := by
      apply max_le
      · norm_num
      · exact hn
    have hno : ¬ (int64Max < max 1 n) := by
      push_neg
      calc max 1 n ≤ (2 : Int) ^ 53 := hmaxle
        _ ≤ int64Max := by norm_num [int64Max]
    have heff : effectiveNumChildSpans n = max 1 n := by
      unfold effectiveNumChildSpans
      rw [floatRound53_of_small n h]
      show (if int64Max < max 1 n then int64Min else max 1 n) = max 1 n
      rw [if_neg hno]
    refine ⟨heff, ?_, ?_⟩
    · rw [heff]
      exact le_max_left 1 n
    · have h1 : (1 : Int) ≤ max 1 n := le_max_left 1 n
      unfold childSpansGenerated
      rw [heff]
      omega
  · intro h
    have hf : floatRound53 n ≤ 0 := floatRound53_nonpos n h
    have hmax : max 1 (floatRound53 n) = 1 := max_eq_left (by omega)
    have heff : effectiveNumChildSpans n = 1 := by
      unfold effectiveNumChildSpans
      show (if int64Max < max 1 (floatRound53 n) then int64Min
            else max 1 (floatRound53 n)) = 1
      rw [hmax, if_neg (by norm_num [int64Max])]
    refine ⟨heff, ?_⟩
    unfold childSpansGenerated
    rw [heff]
    rfl

/-- Claim C9 counterexample: at the configured value 2^53 + 1 the conversion
through `float64` rounds (ties to even) to 2^53, so the effective child-span
count differs from `max 1 (configured)`; and at the configured (and `int`-
representable) value 2^63 - 1 the rounding yields 2^63, which overflows the
`int` conversion — on amd64 it produces minint64, so the child-span loop
runs ZERO times, refuting the at-least-one-child-span consequence as well. -/
theorem C9_counterexample :
    (effectiveNumChildSpans 9007199254740993 = 9007199254740992 ∧
      max 1 (9007199254740993 : Int) = 9007199254740993 ∧
      effectiveNumChildSpans 9007199254740993 ≠ max 1 (9007199254740993 : Int)) ∧
    (effectiveNumChildSpans 9223372036854775807 = -9223372036854775808 ∧
      childSpansGenerated (effectiveNumChildSpans 9223372036854775807) = 0) :=
  ⟨⟨by decide, by decide, by decide⟩, ⟨by decide, by decide⟩⟩

/-- Claim C9 witness: the clamp equals `max 1 n` with at least one child
span at n = 0, and a negative configuration yields exactly one child
span. -/
theorem C9_witness :
    ((0 : Int).natAbs ≤ 2 ^ 53 ∧ effectiveNumChildSpans 0 = max 1 0 ∧
      1 ≤ childSpansGenerated (effectiveNumChildSpans 0))
    ∧ ((-5 : Int) ≤ 0 ∧ effectiveNumChildSpans (-5) = 1 ∧
      childSpansGenerated (effectiveNumChildSpans (-5)) = 1) :=
  ⟨⟨by decide, ((C9_child_span_clamp 0).1 (by decide)).1,
    ((C9_child_span_clamp 0).1 (by decide)).2.2⟩,
   ⟨by decide, ((C9_child_span_clamp (-5)).2 (by decide)).1,
    ((C9_child_span_clamp (-5)).2 (by decide)).2⟩⟩

/-- Claim C10 (amended): the guard `err != nil && v < 1 && v > 24` on the
severity fallback is unsatisfiable — the branch assigning 9 is unreachable —
and for every severity-number string failing `strconv.Atoi` with a SYNTAX
error (which returns value 0) the record is built with severity number 0,
not 9; a string failing with a RANGE error instead yields the clamped
extreme value (see the counterexample). -/
theorem C10_severity_fallback (text s : String) :
    (¬ ((goAtoi s).2 = false ∧ (goAtoi s).1 < 1 ∧ 24 < (goAtoi s).1))
    ∧ (goAtoi s = (0, false) → (severityForRecord text s).number = 0) := by
  constructor
  · rintro ⟨-, h1, h2⟩
    omega
  · intro h
    simp only [severityForRecord, h]
    norm_num [parseSeverity, int32Max, int32Min]

/-- Claim C10 counterexample: `strconv.Atoi` fails on this 20-digit string
(range error, not syntax), returning the clamped max int64; after the int32
clamp the record severity number is 2147483647 — a parse-failing string that
does NOT yield severity number 0. -/
theorem C10_counterexample :
    (goAtoi "99999999999999999999").2 = false ∧
    severityForRecord "" "99999999999999999999" = ⟨"", 2147483647⟩ ∧
    ((2147483647 : Int) ≠ 0) :=
  ⟨by decide, by decide, by decide⟩

/-- Claim C10 witness: a syntax-error severity string yields severity
number 0. -/
theorem C10_witness :
    goAtoi "notanumber" = (0, false) ∧
    (severityForRecord "" "notanumber").number = 0 :=
  ⟨by decide, (C10_severity_fallback "" "notanumber").2 (by decide)⟩

/-- Claim C2 (code-bug evidence): in the worker-loop model an export
failure, a rate-limiter failure and a telemetry-attribute template failure
all end in a `logger.Fatal` outcome — zap's `Fatal` calls `os.Exit(1)`,
terminating the whole process and its sibling workers — contradicting the
claim that such errors stop only the failing worker's loop; only the
body-template failure path breaks out of the loop gracefully. -/
theorem C2_worker_errors_exit_process :
    simulateLogsLoop ⟨false, fun _ => true, fun _ => true, fun _ => true, fun _ => false⟩
        5 5 0 = some ⟨0, .fatalExport⟩
    ∧ simulateLogsLoop ⟨false, fun _ => true, fun _ => true, fun _ => false, fun _ => true⟩
        5 5 0 = some ⟨0, .fatalLimiter⟩
    ∧ simulateLogsLoop ⟨true, fun _ => false, fun _ => true, fun _ => true, fun _ => true⟩
        5 5 0 = some ⟨0, .fatalAttrs⟩
    ∧ simulateTracesLoop ⟨false, fun _ => true, fun _ => true, fun _ => false, fun _ => true⟩
        5 5 0 = some ⟨0, .fatalLimiter⟩
    ∧ simulateLogsLoop ⟨true, fun _ => true, fun _ => false, fun _ => true, fun _ => true⟩
        5 5 0 = some ⟨0, .bodyErrBreak⟩ :=
  ⟨rfl, rfl, rfl, rfl, rfl⟩

/-- Claim C1 counterexample: a valid logs config with two workers — both
completing normally — produces two exporter shutdown invocations, not
exactly one, because the `defer exporter.Shutdown` is registered inside the
worker-spawn loop. -/
theorem C1_counterexample :
    (runLogs ⟨2, 0, 1, "", ""⟩ (fun _ => 1)).events.count CoEvent.shutdown = 2 ∧
    (2 : Nat) ≠ 1 :=
  ⟨by decide, by decide⟩

/-- Claim C1 (amended): for every validated run the exporter shutdown is
invoked once per spawned worker — `workerCount` times, every invocation
after every worker has signalled completion, regardless of the count each
worker reached before stopping — hence exactly once precisely when
`workerCount = 1`. -/
theorem C1_shutdown_per_worker (c : LogsConfig) (we : Nat → Nat)
    (h : logsValidate c = .ok ()) :
    (runLogs c we).events.count CoEvent.shutdown = c.workerCount.toNat
    ∧ (∀ (i j k : Nat) (hi : i < (runLogs c we).events.length)
        (hj : j < (runLogs c we).events.length),
        (runLogs c we).events.get ⟨i, hi⟩ = CoEvent.workerDone k →
        (runLogs c we).events.get ⟨j, hj⟩ = CoEvent.shutdown → i < j)
    ∧ (c.workerCount = 1 →
        (runLogs c we).events.count CoEvent.shutdown = 1) := by
  set W := c.workerCount.toNat with hW
  set A := (List.range W).map CoEvent.workerDone
      ++ [CoEvent.finalReport (((List.range W).map (fun i => (we i : Int))).sum)]
    with hA
  set B := List.replicate W CoEvent.shutdown with hB
  have hev : (runLogs c we).events = A ++ B := by
    unfold runLogs
    rw [h]
  have hcount : (runLogs c we).events.count CoEvent.shutdown = W := by
    rw [hev, List.count_append]
    have h1 : A.count CoEvent.shutdown = 0 := by
      rw [List.count_eq_zero]
      intro hmem
      rw [hA] at hmem
      rcases List.mem_append.mp hmem with hm | hm
      · rcases List.mem_map.mp hm with ⟨x, _, hx⟩
        cases hx
      · simp at hm
    rw [h1, hB]
    simp [List.count_replicate]
  refine ⟨hcount, ?_, fun h1 => by rw [hcount, hW, h1]; rfl⟩
  rw [hev]
  intro i j k hi hj hdone hsd
  exact append_pos_lt A B (fun e => e = CoEvent.workerDone k)
    (fun e => e = CoEvent.shutdown)
    (by
      intro a ha
      rw [hA] at ha
      rcases List.mem_append.mp ha with hm | hm
      · rcases List.mem_map.mp hm with ⟨x, _, hx⟩
        rw [← hx]
        simp
      · simp at hm
        rw [hm]
        simp)
    (by
      intro b hb1
      rw [hB] at hb1
      rw [List.eq_of_mem_replicate hb1]
      simp)
    i j hi hj hdone hsd

/-- Claim C1 witness: a valid two-worker config validates and its run emits
`workerCount` shutdown events. -/
theorem C1_witness :
    logsValidate ⟨2, 0, 1, "", ""⟩ = .ok () ∧
    (runLogs ⟨2, 0, 1, "", ""⟩ (fun _ => 1)).events.count CoEvent.shutdown =
      (⟨2, 0, 1, "", ""⟩ : LogsConfig).workerCount.toNat :=
  ⟨rfl, (C1_shutdown_per_worker ⟨2, 0, 1, "", ""⟩ (fun _ => 1) rfl).1⟩

/-- Claim C3: for a valid config with per-worker count N > 0, one worker,
duration 0 and always-succeeding external calls, the run completes with the
worker loop having exported exactly N records and stopped, and the shared
emitted counter equal to N when the coordinator returns; the traces worker
loop likewise emits exactly N traces. -/
theorem C3_exact_count (N : Int) (hN : 0 < N) :
    runLogsWithWorkers ⟨1, 0, N, "", ""⟩ envAllOk N.toNat =
      some ⟨none, [CoEvent.workerDone 0, CoEvent.finalReport N, CoEvent.shutdown], N⟩
    ∧ simulateLogsLoop envAllOk N N.toNat 0 = some ⟨N.toNat, .completed⟩
    ∧ simulateTracesLoop envAllOk N N.toNat 0 = some ⟨N.toNat, .completed⟩ := by
  have hlogs := simulateLogsLoop_allOk N N.toNat 0 (by omega) (by omega)
  have htr := simulateTracesLoop_allOk N N.toNat 0 (by omega) (by omega)
  refine ⟨?_, hlogs, htr⟩
  unfold runLogsWithWorkers
  have hv : logsValidate ⟨1, 0, N, "", ""⟩ = .ok () := by
    unfold logsValidate
    rw [if_neg (by simp; omega)]
    simp
  rw [hv]
  simp only [show ¬ ((0 : Int) < 0) from by omega, if_false]
  rw [hlogs]
  have ht : ((1 : Nat) : Int) * ((N.toNat : Nat) : Int) = N := by omega
  simp [List.range_succ, List.range_zero, ht]
  omega

/-- Claim C3 witness: at N = 3 the run returns counter 3 after three
exports. -/
theorem C3_witness :
    (0 : Int) < 3 ∧
    runLogsWithWorkers ⟨1, 0, 3, "", ""⟩ envAllOk (3 : Int).toNat =
      some ⟨none, [CoEvent.workerDone 0, CoEvent.finalReport 3, CoEvent.shutdown], 3⟩ :=
  ⟨by decide, (C3_exact_count 3 (by decide)).1⟩

/-- Claim C6: every raw string entry containing the template delimiters is
expanded and the expansion coerced by trying int first, then bool, then
float, falling back to string — with the key recorded as mock-expanded in
each of the four outcomes — and over a whole map every delimited string
entry's key ends up in the recorded mock-key list. -/
theorem C6_mock_coercion (expand : String → Except String String)
    (parseFloatOk : String → Bool) (k s parsed : String) :
    (hasTemplateDelims s = true → expand s = .ok parsed →
      processEntry expand parseFloatOk k (.str s) =
        .ok (some (coerceExpanded parseFloatOk k parsed), true))
    ∧ ((goAtoi parsed).2 = true →
        coerceExpanded parseFloatOk k parsed = ⟨k, .int (goAtoi parsed).1⟩)
    ∧ (∀ b, (goAtoi parsed).2 = false → goParseBool parsed = some b →
        coerceExpanded parseFloatOk k parsed = ⟨k, .boolean b⟩)
    ∧ ((goAtoi parsed).2 = false → goParseBool parsed = none →
        parseFloatOk parsed = true →
        coerceExpanded parseFloatOk k parsed = ⟨k, .float parsed⟩)
    ∧ ((goAtoi parsed).2 = false → goParseBool parsed = none →
        parseFloatOk parsed = false →
        coerceExpanded parseFloatOk k parsed = ⟨k, .str parsed⟩)
    ∧ (∀ (attrs : RawMap) (kvs : List KeyValue) (mks : List String),
        processMockMarkersCore expand parseFloatOk attrs = .ok (kvs, mks) →
        (k, AnyVal.str s) ∈ attrs → hasTemplateDelims s = true → k ∈ mks) := by
  refine ⟨?_, ?_, ?_, ?_, ?_, ?_⟩
  · intro h1 h2
    simp [processEntry, h1, h2]
  · intro h1
    simp [coerceExpanded, h1]
  · intro b h1 h2
    simp [coerceExpanded, h1, h2]
  · intro h1 h2 h3
    simp [coerceExpanded, h1, h2, h3]
  · intro h1 h2 h3
    simp [coerceExpanded, h1, h2, h3]
  · intro attrs
    induction attrs with
    | nil =>
      intro kvs mks _ hmem _
      simp at hmem
    | cons hd rest ih =>
      intro kvs mks hres hmem hdel
      obtain ⟨k', v'⟩ := hd
      simp only [processMockMarkersCore] at hres
      rcases hpe : processEntry expand parseFloatOk k' v' with e | pr
      · rw [hpe] at hres
        cases hres
      · obtain ⟨kv?, isMock⟩ := pr
        rw [hpe] at hres
        rcases hrest : processMockMarkersCore expand parseFloatOk rest with e | pr2
        · rw [hrest] at hres
          cases hres
        · obtain ⟨kvs', mks'⟩ := pr2
          rw [hrest] at hres
          simp only [Except.ok.injEq, Prod.mk.injEq] at hres
          obtain ⟨-, hmks⟩ := hres
          rcases List.mem_cons.mp hmem with hh | ht
          · obtain ⟨hk, hv⟩ := Prod.mk.injEq .. ▸ hh
            -- hh : (k, .str s) = (k', v')
            have hk' : k' = k := by
              cases hh
              rfl
            have hv' : v' = AnyVal.str s := by
              cases hh
              rfl
            subst hk' hv'
            rw [processEntry] at hpe
            rw [hdel] at hpe
            simp only [if_true] at hpe
            rcases hex : expand s with e2 | p2
            · rw [hex] at hpe
              cases hpe
            · rw [hex] at hpe
              simp only [Except.ok.injEq, Prod.mk.injEq] at hpe
              obtain ⟨-, hm⟩ := hpe
              rw [← hmks, ← hm]
              simp
          · have := ih kvs' mks' hrest ht hdel
            rw [← hmks]
            exact List.mem_append_right _ this

/-- Claim C6 witness: a delimited template expanding to "42" is coerced to
an int attribute with the key marked mock-expanded; "x1y" falls through to
the string case; the key lands in the recorded mock-key list. -/
theorem C6_witness :
    (hasTemplateDelims "\x7b\x7bNumber 1 24\x7d\x7d" = true ∧
      processEntry (fun _ => .ok "42") (fun _ => false) "code"
          (.str "\x7b\x7bNumber 1 24\x7d\x7d") =
        .ok (some (coerceExpanded (fun _ => false) "code" "42"), true))
    ∧ ((goAtoi "42").2 = true ∧
      coerceExpanded (fun _ => false) "code" "42" = ⟨"code", .int (goAtoi "42").1⟩)
    ∧ ((goAtoi "x1y").2 = false ∧ goParseBool "x1y" = none ∧
      coerceExpanded (fun _ => false) "code" "x1y" = ⟨"code", .str "x1y"⟩)
    ∧ ("code" ∈ ["code"]) :=
  ⟨⟨by decide,
    (C6_mock_coercion (fun _ => .ok "42") (fun _ => false) "code"
      "\x7b\x7bNumber 1 24\x7d\x7d" "42").1 (by decide) rfl⟩,
   ⟨by decide,
    (C6_mock_coercion (fun _ => .ok "42") (fun _ => false) "code" "" "42").2.1
      (by decide)⟩,
   ⟨by decide, by decide,
    (C6_mock_coercion (fun _ => .ok "42") (fun _ => false) "code" "" "x1y").2.2.2.2.1
      (by decide) (by decide) rfl⟩,
   (C6_mock_coercion (fun _ => .ok "42") (fun _ => false) "code"
      "\x7b\x7bNumber 1 24\x7d\x7d" "42").2.2.2.2.2
     [("code", AnyVal.str "\x7b\x7bNumber 1 24\x7d\x7d")]
     [coerceExpanded (fun _ => false) "code" "42"] ["code"] rfl
     (by simp) (by decide)⟩

/-- Claim C7: with mock data disabled the attribute build is the pure
`attributesFromMap` (never erring), so repeated calls on the same input are
identical; and it is insensitive to Go map iteration order — any two
iteration orders of the same bindings yield KeyValue lists that are
permutations of each other (equal as sets of key/typed-value pairs). -/
theorem C7_mock_disabled_idempotent (expand : String → Except String String)
    (parseFloatOk : String → Bool) (m₁ m₂ : RawMap) :
    getTelemetryAttrWithMockMarker false expand parseFloatOk m₁ =
      .ok (attributesFromMap m₁)
    ∧ (m₁.Perm m₂ → (attributesFromMap m₁).Perm (attributesFromMap m₂)) :=
  ⟨rfl, fun hp => hp.filterMap entryToKV⟩

/-- Claim C7 witness: two iteration orders of the same two-binding map give
permuted attribute lists. -/
theorem C7_witness :
    ([("a", AnyVal.str "x"), ("b", AnyVal.int 1)] : RawMap).Perm
      [("b", AnyVal.int 1), ("a", AnyVal.str "x")] ∧
    (attributesFromMap [("a", AnyVal.str "x"), ("b", AnyVal.int 1)]).Perm
      (attributesFromMap [("b", AnyVal.int 1), ("a", AnyVal.str "x")]) :=
  ⟨by decide,
   (C7_mock_disabled_idempotent (fun _ => .ok "") (fun _ => false)
     [("a", AnyVal.str "x"), ("b", AnyVal.int 1)]
     [("b", AnyVal.int 1), ("a", AnyVal.str "x")]).2 (by decide)⟩

/-- Claim C8: validation rejects — with an error returned before any worker
is spawned — every config whose total duration and per-worker count are both
non-positive, and accepts any config with positive duration or positive
count whose identifiers, where supplied, are well-formed (the traces config
has no identifier fields). -/
theorem C8_validate_rejects_nonpositive (c : LogsConfig) (tc : TracesConfig)
    (we : Nat → Nat) :
    (c.totalDuration ≤ 0 → c.numLogs ≤ 0 →
      logsValidate c = .error "either `logs` or `duration` must be greater than 0"
      ∧ runLogs c we =
          ⟨some "either `logs` or `duration` must be greater than 0", [], 0⟩)
    ∧ ((0 < c.totalDuration ∨ 0 < c.numLogs) →
        (c.traceID = "" ∨ validateTraceID c.traceID = .ok ()) →
        (c.spanID = "" ∨ validateSpanID c.spanID = .ok ()) →
        logsValidate c = .ok ())
    ∧ (tc.totalDuration ≤ 0 → tc.numTraces ≤ 0 →
        tracesValidate tc =
          .error "either `traces` or `duration` must be greater than 0")
    ∧ ((0 < tc.totalDuration ∨ 0 < tc.numTraces) → tracesValidate tc = .ok ()) := by
  refine ⟨?_, ?_, ?_, ?_⟩
  · intro h1 h2
    have hv : logsValidate c =
        .error "either `logs` or `duration` must be greater than 0" := by
      unfold logsValidate
      rw [if_pos ⟨h1, h2⟩]
    refine ⟨hv, ?_⟩
    unfold runLogs
    rw [hv]
  · intro hpos htid hsid
    unfold logsValidate
    rw [if_neg (by omega)]
    have htid' : (if c.traceID = "" then Except.ok () else validateTraceID c.traceID) =
        (.ok () : Except String Unit) := by
      rcases htid with h' | h'
      · rw [if_pos h']
      · by_cases hc : c.traceID = ""
        · rw [if_pos hc]
        · rw [if_neg hc]
          exact h'
    rw [htid']
    rcases hsid with h' | h'
    · rw [if_pos h']
    · by_cases hc : c.spanID = ""
      · rw [if_pos hc]
      · rw [if_neg hc]
        exact h'
  · intro h1 h2
    unfold tracesValidate
    rw [if_pos ⟨h1, h2⟩]
  · intro hpos
    unfold tracesValidate
    rw [if_neg (by omega)]

/-- Claim C8 witness: a zero-duration zero-count logs config is rejected
before spawning; a count-5 config with well-formed identifiers passes; the
traces analogues behave the same. -/
theorem C8_witness :
    (logsValidate ⟨1, 0, 0, "", ""⟩ =
        .error "either `logs` or `duration` must be greater than 0"
      ∧ runLogs ⟨1, 0, 0, "", ""⟩ (fun _ => 0) =
          ⟨some "either `logs` or `duration` must be greater than 0", [], 0⟩)
    ∧ logsValidate ⟨1, 0, 5, "ae87dadd90e9935a4bc9660628efd569", "5828fa4960140870"⟩ =
        .ok ()
    ∧ tracesValidate ⟨1, 0, 0, 1⟩ =
        .error "either `traces` or `duration` must be greater than 0"
    ∧ tracesValidate ⟨1, 0, 3, 1⟩ = .ok () :=
  ⟨(C8_validate_rejects_nonpositive ⟨1, 0, 0, "", ""⟩ ⟨1, 0, 0, 1⟩ (fun _ => 0)).1
     (by decide) (by decide),
   (C8_validate_rejects_nonpositive
      ⟨1, 0, 5, "ae87dadd90e9935a4bc9660628efd569", "5828fa4960140870"⟩
      ⟨1, 0, 0, 1⟩ (fun _ => 0)).2.1
     (Or.inr (by decide)) (Or.inr rfl) (Or.inr rfl),
   (C8_validate_rejects_nonpositive ⟨1, 0, 0, "", ""⟩ ⟨1, 0, 0, 1⟩ (fun _ => 0)).2.2.1
     (by decide) (by decide),
   (C8_validate_rejects_nonpositive ⟨1, 0, 0, "", ""⟩ ⟨1, 0, 3, 1⟩ (fun _ => 0)).2.2.2
     (Or.inr (by decide))⟩

end TrazrGen
